import Mathlib

/-!
Verification development for the Sales-Analytics repository.

This file gives a shallow embedding of the two core modules:

* `src/data_cleaner.py` — the six-stage cleaning pipeline (`DataCleaner`),
  embedded as pure functions on lists of rows.  Cell values are modelled as
  `Option ℚ` for the numeric columns (pandas `NaN` = `none`), the
  inductive `IdVal` for `Order_ID` (which in pandas may hold ints,
  floats or strings; an `Order_ID` cell is only ever null-checked,
  equality-compared and `str()`-ed, so a finite float is represented
  faithfully by the decimal value of its shortest round-trip `repr`,
  which determines the float and all three observations of it), and
  `Option String` for the text columns.  Duplicate removal compares IDs
  with Python `==` (`idEq`, numeric across int/float), and the stage-5
  `astype(str)` renders them with Python's `str` (`idToStr`,
  `pyFloatStr`).  The pandas date handling
  (`to_datetime(errors='coerce')` followed by `.dt.date`) is
  modelled by `DateVal`/`parseDate`.  The audit log is pure presentation
  (free-text strings, never machine-read) and is not modelled.
  `pd.to_numeric(errors='coerce')` on the numeric columns is the identity
  on the modelled cells: a non-numeric string in Quantity/Price/Revenue
  makes the arithmetic of `_fix_revenue_calculations` raise a `TypeError`
  in the original program, so no table containing one is ever returned.

* `src/forecasting.py` — the forecast engine (`SalesForecaster`), embedded
  over a monthly revenue series `List (ℤ × ℚ)` (month index, revenue).
  The two statsmodels fitting routines are external libraries; they are
  modelled by an abstract `FittedModel` (point-forecast function, fitted
  values, residuals) passed in as a `FitOutcome` argument, while all the
  repository's own logic (gating, dispatch, band construction, summary)
  is embedded from the source.  `np.std` is the population standard
  deviation, `Real.sqrt` of the rational variance.
-/

/-- A value of the `Order_ID` column: pandas cells may hold a missing
marker (`NaN`), a Python `int`, a Python `float`, or a string.  A finite
float is identified with the decimal value that its shortest round-trip
`repr` displays; every finite float is uniquely determined by that
value, so `floatv q` always carries a rational whose denominator is of
the form `2^a·5^b`.  The special floats (`inf`, `-inf`, `nan`, `-0.0`)
lie outside the modelled value domain: a `nan` in this column is
exactly the missing marker. -/
inductive IdVal where
  | missing
  | intv (n : ℤ)
  | floatv (q : ℚ)
  | str (s : String)
deriving DecidableEq

/-- A value of the `Order_Date` column: missing, unparseable, or a valid
calendar date (abstracted to an integer month index; the day within the
month is irrelevant to every consumer). -/
inductive DateVal where
  | missing
  | bad
  | date (d : ℤ)
deriving DecidableEq

/-- One row of the working sales table (the required columns of §6 of the
spec). -/
structure Row where
  order_id : IdVal
  order_date : DateVal
  product : Option String
  category : Option String
  quantity : Option ℚ
  price : Option ℚ
  revenue : Option ℚ
  region : Option String
  customer_type : Option String
deriving DecidableEq

/-- `pd.to_datetime(errors='coerce')`: unparseable dates become missing,
valid dates and missing cells are unchanged. -/
def parseDate : DateVal → DateVal
  | .bad => .missing
  | v => v

/-- Whether a date cell holds a valid calendar date. -/
def isDate : DateVal → Bool
  | .date _ => true
  | _ => false

/-- Whether an `Order_ID` cell is non-null. -/
def idPresent : IdVal → Bool
  | .missing => false
  | _ => true

/-- `DataCleaner._standardize_dates`: coerce dates, drop rows whose date
did not parse. -/
def _standardize_dates (t : List Row) : List Row :=
  (t.map fun r => { r with order_date := parseDate r.order_date }).filter
    fun r => isDate r.order_date

/-- Row predicate for stage 2(a): the critical identity fields
`Order_ID`, `Product`, `Category` are all present. -/
def critKeep (r : Row) : Bool :=
  idPresent r.order_id && r.product.isSome && r.category.isSome

/-- Stage 2(d): rows with missing `Revenue` get `Quantity × Price`
(both present by this point). -/
def revRow (r : Row) : Row :=
  if r.revenue.isSome then r
  else { r with revenue := some (r.quantity.getD 0 * r.price.getD 0) }

/-- Stage 2(e): missing `Region`/`Customer_Type` become `"Unknown"`. -/
def fillRow (r : Row) : Row :=
  { r with region := some (r.region.getD "Unknown"),
           customer_type := some (r.customer_type.getD "Unknown") }

/-- `DataCleaner._handle_missing_values`: drop rows missing critical
fields, then missing quantity, then missing price; recompute missing
revenue; fill missing region/customer type. -/
def _handle_missing_values (t : List Row) : List Row :=
  ((((t.filter critKeep).filter fun r => r.quantity.isSome).filter
      fun r => r.price.isSome).map revRow).map fillRow

/-- Python `==` on `Order_ID` cells, which is what the hash table of
`drop_duplicates` collates by: numbers compare by value across
`int`/`float` (`1 == 1.0` in Python), strings by value, a number never
equals a string, and `NaN` keys collate with each other in pandas
duplicate detection. -/
def idEq : IdVal → IdVal → Bool
  | .missing, .missing => true
  | .intv a, .intv b => decide (a = b)
  | .floatv a, .floatv b => decide (a = b)
  | .intv a, .floatv b => decide ((a : ℚ) = b)
  | .floatv a, .intv b => decide (a = (b : ℚ))
  | .str a, .str b => decide (a = b)
  | _, _ => false

/-- Membership of an ID in the seen list, under Python equality. -/
def idMem (v : IdVal) (seen : List IdVal) : Bool :=
  seen.any fun s => idEq v s

/-- `df.drop_duplicates(subset=['Order_ID'], keep='first')`: keep a row
iff no Python-equal `Order_ID` has been seen earlier. -/
def dedupFirst : List Row → List IdVal → List Row
  | [], _ => []
  | r :: rs, seen =>
      if idMem r.order_id seen then dedupFirst rs seen
      else r :: dedupFirst rs (r.order_id :: seen)

/-- `DataCleaner._remove_duplicates`. -/
def _remove_duplicates (t : List Row) : List Row :=
  dedupFirst t []

/-- The stage-4 repair condition.  pandas computes
`pct = |rev - q*p| / (q*p) * 100` and repairs when `pct > 1.0`; when
`q*p = 0` the quotient is `inf` (repair) for `rev ≠ 0` and `NaN`
(no repair) for `rev = 0`. -/
def fixCond (q p v : ℚ) : Bool :=
  if q * p = 0 then v ≠ 0 else |v - q * p| / (q * p) * 100 > 1

/-- Stage-4 action on one row: recompute `Revenue` as `Quantity × Price`
when the discrepancy exceeds 1 %.  Rows with a missing operand are
untouched (`NaN` comparisons are false in pandas). -/
def fixRow (r : Row) : Row :=
  match r.quantity, r.price, r.revenue with
  | some q, some p, some v =>
      if fixCond q p v then { r with revenue := some (q * p) } else r
  | _, _, _ => r

/-- `DataCleaner._fix_revenue_calculations` (the three helper columns are
added and dropped again inside the stage). -/
def _fix_revenue_calculations (t : List Row) : List Row :=
  t.map fixRow

/-- The smallest `k` with `d ∣ 10^k`, searched with early exit; it
exists (and is at most `d`) exactly when `d` is of the form `2^a·5^b`,
which holds for the denominator of every float's displayed decimal
value. -/
def decExpAux : ℕ → ℕ → ℕ → Option ℕ
  | 0, _, _ => none
  | fuel + 1, d, k => if 10 ^ k % d = 0 then some k else decExpAux fuel d (k + 1)

/-- Number of fractional digits of the decimal expansion of a fraction
with denominator `d` (none when `d` has a prime factor other than 2
and 5). -/
def decExp (d : ℕ) : Option ℕ :=
  decExpAux (d + 1) d 0

/-- Drop trailing `'0'` characters of a digit string. -/
def stripTrailingZeros (s : String) : String :=
  String.mk ((s.toList.reverse.dropWhile fun c => c == '0').reverse)

/-- Left-pad a digit string with zeros to length `n`. -/
def padLeftZeros (s : String) (n : ℕ) : String :=
  String.mk (List.replicate (n - s.length) '0') ++ s

/-- The exponent suffix of Python's scientific float notation: sign
always shown, absolute value padded to at least two digits
(`e+16`, `e-05`, `e+100`). -/
def expString (e : ℤ) : String :=
  (if e < 0 then "e-" else "e+") ++ padLeftZeros (toString e.natAbs) 2

/-- Python `str()` of a finite float, applied to the float's displayed
decimal value `q` (see `IdVal`): fixed-point notation with the minimal
number of fractional digits while the leading digit's decimal exponent
`e` lies in `[-4, 15]` (integral floats get a trailing `".0"`), and
scientific notation `d.ddde±NN` outside that window — e.g. `0.5`,
`123.4`, `2.0`, `0.0001`, `1e+16`, `1.23e-05`.  The fallback for a
denominator that is not of the form `2^a·5^b` is unreachable for
float-valued cells, whose displayed decimal value always has such a
denominator. -/
def pyFloatStr (q : ℚ) : String :=
  match decExp q.den with
  | none => toString q.num ++ "/" ++ toString q.den
  | some k =>
      let m : ℤ := q.num * 10 ^ k / (q.den : ℤ)
      let s : ℕ := m.natAbs
      let sign : String := if m < 0 then "-" else ""
      if s = 0 then "0.0"
      else
        let ds : String := toString s
        let e : ℤ := (ds.length : ℤ) - (k : ℤ) - 1
        if -4 ≤ e ∧ e ≤ 15 then
          if k = 0 then sign ++ ds ++ ".0"
          else
            sign ++ toString (s / 10 ^ k) ++ "." ++
              padLeftZeros (toString (s % 10 ^ k)) k
        else
          let md : String := stripTrailingZeros ds
          let mant : String :=
            if md.length = 1 then md
            else String.mk [md.toList.headD '0'] ++ "." ++
              String.mk md.toList.tail
          sign ++ mant ++ expString e

/-- Python `str()` of an `Order_ID` cell, as applied by `astype(str)`:
`str(nan) = "nan"`, ints print without a decimal point, floats print in
Python's shortest round-trip form (`pyFloatStr`), strings are
unchanged. -/
def idToStr : IdVal → String
  | .missing => "nan"
  | .intv n => toString n
  | .floatv q => pyFloatStr q
  | .str s => s

/-- `astype(str)` on a text column: a missing cell becomes the literal
string `"nan"`, a string is unchanged. -/
def strCell : Option String → Option String
  | none => some "nan"
  | some s => some s

/-- Stage-5 action on one row: `Order_ID` and the category-like fields
are coerced to text; `pd.to_numeric(errors='coerce')` is the identity on
the (numeric-or-missing) Quantity/Price/Revenue cells. -/
def typeRow (r : Row) : Row :=
  { r with order_id := .str (idToStr r.order_id),
           product := strCell r.product,
           category := strCell r.category,
           region := strCell r.region,
           customer_type := strCell r.customer_type }

/-- `DataCleaner._validate_data_types`. -/
def _validate_data_types (t : List Row) : List Row :=
  t.map typeRow

/-- `DataCleaner._handle_outliers`: log-only diagnostics, the table is
returned unchanged. -/
def _handle_outliers (t : List Row) : List Row :=
  t

/-- `DataCleaner.clean_data`: the six stages in source order (the
returned audit log is not modelled). -/
def clean_data (t : List Row) : List Row :=
  _handle_outliers (_validate_data_types (_fix_revenue_calculations
    (_remove_duplicates (_handle_missing_values (_standardize_dates t)))))

/-- The table the duplicate-removal stage actually sees: the output of
stages 1–3 on the raw table. -/
def dedupStage (t : List Row) : List Row :=
  _remove_duplicates (_handle_missing_values (_standardize_dates t))

-- ## Forecasting engine

/-- Python `lst[-n:]` (for `n ≥ 1`; all uses have `n ≥ 1`). -/
def takeR (n : ℕ) (l : List α) : List α :=
  l.drop (l.length - n)

/-- `np.mean` over rationals. -/
def qmean (xs : List ℚ) : ℚ :=
  xs.sum / xs.length

/-- Population variance (`np.std` squares, ddof 0). -/
def popVar (xs : List ℚ) : ℚ :=
  ((xs.map fun x => (x - qmean xs) ^ 2).sum) / xs.length

/-- `np.std`: population standard deviation. -/
noncomputable def popStd (xs : List ℚ) : ℝ :=
  Real.sqrt ((popVar xs : ℚ) : ℝ)

/-- One step of the moving-average recursion: with `i = preds.length`
completed steps, average `(hist[-w:] + preds[-min(i,w):])[-w:]`. -/
def maStep (histW preds : List ℚ) (w : ℕ) : ℚ :=
  qmean (takeR w (histW ++ takeR (min preds.length w) preds))

/-- The moving-average prediction loop, by remaining-step fuel. -/
def maPredsAux (histW : List ℚ) (w : ℕ) : ℕ → List ℚ → List ℚ
  | 0, preds => preds
  | n + 1, preds => maPredsAux histW w n (preds ++ [maStep histW preds w])

/-- All `periods` moving-average predictions for the historical values. -/
def maPreds (hist : List ℚ) (w p : ℕ) : List ℚ :=
  maPredsAux (takeR w hist) w p []

/-- A monthly revenue series: (month index, aggregated revenue),
chronologically ordered. -/
abbrev MonthlySeries := List (ℤ × ℚ)

/-- The month index of `monthly_revenue.index[-1]` (the real code raises
on an empty series; every claim below assumes a non-empty one). -/
def lastMonth (series : MonthlySeries) : ℤ :=
  (series.getLastD (0, 0)).1

/-- `pd.date_range(start=last+1 month, periods=p, freq='MS')` as month
indices. -/
def futureMonths (lastM : ℤ) (p : ℕ) : List ℤ :=
  (List.range p).map fun (i : ℕ) => lastM + 1 + (i : ℤ)

/-- The uniform success payload of the three methods (`historical` and
`forecast_period_months` are attached later by `generate_forecast`; the
`parameters` metadata is kept as printed key/value text). -/
structure ForecastData where
  method : String
  forecast : List (ℤ × ℚ)
  lower : List (ℤ × ℝ)
  upper : List (ℤ × ℝ)
  explanation : String
  confidence : String
  parameters : List (String × String)
  historical : MonthlySeries
  forecast_period_months : ℕ

/-- Build the common result shape: point forecasts over the future
months, and the symmetric band `forecast ± 1.96σ`. -/
noncomputable def mkBand (method : String) (months : List ℤ) (vals : List ℚ)
    (σ : ℝ) (expl conf : String) (params : List (String × String)) :
    ForecastData :=
  let fc := months.zip vals
  { method := method
    forecast := fc
    lower := fc.map fun mp => (mp.1, (mp.2 : ℝ) - 196 / 100 * σ)
    upper := fc.map fun mp => (mp.1, (mp.2 : ℝ) + 196 / 100 * σ)
    explanation := expl
    confidence := conf
    parameters := params
    historical := []
    forecast_period_months := 0 }

/-- `SalesForecaster.moving_average_forecast` (window default 3): always
succeeds; σ is the std of the last `window` historical values. -/
noncomputable def moving_average_forecast (series : MonthlySeries)
    (window p : ℕ) : ForecastData :=
  let hist := series.map Prod.snd
  mkBand "Moving Average" (futureMonths (lastMonth series) p)
    (maPreds hist window p) (popStd (takeR window hist))
    ("Forecast based on average of last " ++ toString window ++
      " months. Assumes stable sales pattern without strong trends.")
    "Medium - Best for stable markets"
    [("window", toString window)]

/-- Abstract view of a fitted statsmodels model: its point forecasts,
its in-sample fitted values, and its residual series. -/
structure FittedModel where
  forecastFn : ℕ → ℚ
  fittedvalues : List ℚ
  resid : List ℚ

/-- Outcome of the external fitting routine: a fitted model, or the
exception message of a numerical failure. -/
inductive FitOutcome where
  | ok (m : FittedModel)
  | fail (e : String)

/-- A forecast-call result: the error dictionary `{'error', 'message'}`
(which carries no forecast, bound, or historical fields), or a success
payload. -/
inductive FResult where
  | err (error : String) (message : String)
  | ok (data : ForecastData)

/-- The exponential-smoothing success payload: project `p` months ahead;
σ is the std of the in-sample residuals `fittedvalues - actuals`. -/
noncomputable def esBuild (series : MonthlySeries) (p : ℕ)
    (m : FittedModel) : ForecastData :=
  let hist := series.map Prod.snd
  let residuals := List.zipWith (fun a b => a - b) m.fittedvalues hist
  mkBand "Exponential Smoothing" (futureMonths (lastMonth series) p)
    ((List.range p).map m.forecastFn) (popStd residuals)
    ("Forecast using weighted average with more importance on recent months. " ++
      "Captures trend direction (growth/decline). " ++
      "Confidence intervals show 95% prediction range.")
    "High - Recommended for trending data"
    [("trend", "additive"), ("seasonal", "None")]

/-- The insufficient-data error of `exponential_smoothing_forecast`. -/
def insufficientES : FResult :=
  .err "Insufficient data"
    "Need at least 6 months of historical data for reliable exponential smoothing"

/-- The message attached to an exponential-smoothing fit failure. -/
def esFailMsg : String :=
  "Exponential smoothing failed - data may be too irregular"

/-- `SalesForecaster.exponential_smoothing_forecast`: gate on 6 months
of history, then dispatch on the external fit outcome. -/
noncomputable def exponential_smoothing_forecast (series : MonthlySeries)
    (p : ℕ) (fit : FitOutcome) : FResult :=
  if series.length < 6 then insufficientES
  else
    match fit with
    | .ok m => .ok (esBuild series p m)
    | .fail e => .err e esFailMsg

/-- The ARIMA success payload: σ is the std of the model residuals. -/
noncomputable def arBuild (series : MonthlySeries) (ord : ℕ × ℕ × ℕ)
    (p : ℕ) (m : FittedModel) : ForecastData :=
  mkBand "ARIMA" (futureMonths (lastMonth series) p)
    ((List.range p).map m.forecastFn) (popStd m.resid)
    ("Statistical forecast using ARIMA(" ++ toString ord.1 ++ ", " ++
      toString ord.2.1 ++ ", " ++ toString ord.2.2 ++
      "). Model analyzes historical patterns, trends, and cycles. " ++
      "95% confidence interval provided.")
    "Very High - Best for long-term planning"
    [("order", toString ord.1 ++ "," ++ toString ord.2.1 ++ "," ++ toString ord.2.2),
     ("p", toString ord.1 ++ " (past values used)"),
     ("d", toString ord.2.1 ++ " (trend removal)"),
     ("q", toString ord.2.2 ++ " (error correction)")]

/-- The insufficient-data error of `arima_forecast`. -/
def insufficientAR : FResult :=
  .err "Insufficient data" "ARIMA requires at least 12 months of historical data"

/-- The message attached to an ARIMA fit failure. -/
def arFailMsg : String :=
  "ARIMA forecast failed - trying simpler model recommended"

/-- `SalesForecaster.arima_forecast`: gate on 12 months of history, then
dispatch on the external fit outcome. -/
noncomputable def arima_forecast (series : MonthlySeries) (ord : ℕ × ℕ × ℕ)
    (p : ℕ) (fit : FitOutcome) : FResult :=
  if series.length < 12 then insufficientAR
  else
    match fit with
    | .ok m => .ok (arBuild series ord p m)
    | .fail e => .err e arFailMsg

-- ## Forecaster state and dispatch

/-- A row of the table handed to `SalesForecaster` (only the columns the
engine reads): the order date, the derived `Year_Month` column (absent
until `prepare_time_series` writes it), and the revenue. -/
structure FRow where
  date : ℤ
  day : ℕ
  year_month : Option ℤ
  revenue : ℚ
deriving DecidableEq

/-- `Order_Date.dt.to_period('M')`: the month of a date (the `date`
field already is the month index; `day` is the day within it). -/
def monthOf (r : FRow) : ℤ :=
  r.date

/-- The state of a `SalesForecaster` object. -/
structure ForecasterState where
  df : List FRow
  monthly_revenue : Option MonthlySeries
  forecast_results : Option FResult

/-- Writing the `Year_Month` column into the table (the in-place
mutation of `self.df` done by `prepare_time_series`). -/
def prepareDf (df : List FRow) : List FRow :=
  df.map fun r => { r with year_month := some (monthOf r) }

/-- Insertion into a sorted list of month keys. -/
def insertSorted (m : ℤ) : List ℤ → List ℤ
  | [] => [m]
  | x :: xs => if m ≤ x then m :: x :: xs else x :: insertSorted m xs

/-- Sort month keys ascending (`sort_index`). -/
def sortInts (l : List ℤ) : List ℤ :=
  l.foldr insertSorted []

/-- `groupby('Year_Month')['Revenue'].sum().sort_index()`: the distinct
months, ascending, each with its summed revenue. -/
def groupMonths (df : List FRow) : MonthlySeries :=
  (sortInts ((df.map monthOf).dedup)).map fun m =>
    (m, ((df.filter fun r => monthOf r == m).map FRow.revenue).sum)

/-- `SalesForecaster.prepare_time_series`: mutates the table (parsed
dates, new `Year_Month` column), stores and returns the monthly series. -/
def prepare_time_series (s : ForecasterState) :
    ForecasterState × MonthlySeries :=
  let series := groupMonths s.df
  ({ s with df := prepareDf s.df, monthly_revenue := some series }, series)

/-- On success, `generate_forecast` attaches the historical series and
the echoed horizon to the result; errors pass through unchanged. -/
noncomputable def attachMeta (r : FResult) (series : MonthlySeries)
    (p : ℕ) : FResult :=
  match r with
  | .ok d => .ok { d with historical := series, forecast_period_months := p }
  | .err e m => .err e m

/-- The invalid-method error of `generate_forecast`. -/
def invalidMethodErr : FResult :=
  .err "Invalid method" "Choose: moving_average, exponential_smoothing, or arima"

/-- `SalesForecaster.generate_forecast`: prepare the series (always,
before anything else), dispatch on the method tag, attach metadata and
store the result on the instance.  The two external fit outcomes are
explicit arguments. -/
noncomputable def generate_forecast (s : ForecasterState) (method : String)
    (p : ℕ) (fitES fitAR : FitOutcome) : ForecasterState × FResult :=
  let s1 := (prepare_time_series s).1
  let series := (prepare_time_series s).2
  if method = "moving_average" then
    let r := attachMeta (.ok (moving_average_forecast series 3 p)) series p
    ({ s1 with forecast_results := some r }, r)
  else if method = "exponential_smoothing" then
    let r := attachMeta (exponential_smoothing_forecast series p fitES) series p
    ({ s1 with forecast_results := some r }, r)
  else if method = "arima" then
    let r := attachMeta (arima_forecast series (1, 1, 1) p fitAR) series p
    ({ s1 with forecast_results := some r }, r)
  else (s1, invalidMethodErr)

-- ## Forecast summarizer

/-- The summary dictionary returned by `get_forecast_summary`. -/
structure ForecastSummary where
  total_forecast_revenue : ℚ
  avg_monthly_forecast : ℚ
  avg_historical_last_6m : ℚ
  change_from_historical_pct : ℚ
  trend : String
  interpretation : String

/-- `SalesForecaster._interpret_forecast` (the numeric formatting of the
percent change inside the narrative is not modelled). -/
def _interpret_forecast (trend : String) : String :=
  if trend = "GROWTH" then
    "Sales forecast shows growth. RECOMMENDATIONS: Increase inventory, " ++
      "expand capacity, invest in marketing. Monitor fulfillment " ++
      "capabilities to handle increased demand."
  else if trend = "DECLINE" then
    "Sales forecast shows decline. RECOMMENDATIONS: Review pricing " ++
      "strategy, investigate competition, enhance marketing efforts. " ++
      "Consider cost reduction measures."
  else
    "Sales forecast shows stable pattern. RECOMMENDATIONS: Maintain " ++
      "current operations, focus on efficiency, explore new growth opportunities."

/-- `SalesForecaster.get_forecast_summary` on a completed (non-error)
result: totals, the average of the last six historical months
(`historical[-6:].mean()`), the guarded percent change, and the
±5 % trend classification. -/
def get_forecast_summary (d : ForecastData) : ForecastSummary :=
  let fvals := d.forecast.map Prod.snd
  let hvals := d.historical.map Prod.snd
  let avgF := qmean fvals
  let avgH := qmean (takeR 6 hvals)
  let pct := if 0 < avgH then (avgF - avgH) / avgH * 100 else 0
  let trend := if 5 < pct then "GROWTH"
               else if pct < -5 then "DECLINE" else "STABLE"
  { total_forecast_revenue := fvals.sum
    avg_monthly_forecast := avgF
    avg_historical_last_6m := avgH
    change_from_historical_pct := pct
    trend := trend
    interpretation := _interpret_forecast trend }

-- ## Cleaning-pipeline lemmas

/-- The full shape invariant of rows produced by `clean_data`. -/
def RowShape (r : Row) : Prop :=
  (∃ d, r.order_date = DateVal.date d) ∧
  (∃ s, r.order_id = IdVal.str s) ∧
  r.product.isSome ∧ r.category.isSome ∧
  r.region.isSome ∧ r.customer_type.isSome ∧
  ∃ q p v, r.quantity = some q ∧ r.price = some p ∧ r.revenue = some v ∧
    fixCond q p v = false

lemma mem_standardize {t : List Row} {r : Row}
    (h : r ∈ _standardize_dates t) : ∃ d, r.order_date = DateVal.date d := by
  unfold _standardize_dates at h
  have hd := (List.mem_filter.mp h).2
  cases hdate : r.order_date with
  | date d => exact ⟨d, rfl⟩
  | missing => rw [hdate] at hd; simp [isDate] at hd
  | bad => rw [hdate] at hd; simp [isDate] at hd

lemma revRow_order_id (r : Row) : (revRow r).order_id = r.order_id := by
  unfold revRow; split <;> rfl

lemma revRow_order_date (r : Row) : (revRow r).order_date = r.order_date := by
  unfold revRow; split <;> rfl

lemma revRow_product (r : Row) : (revRow r).product = r.product := by
  unfold revRow; split <;> rfl

lemma revRow_category (r : Row) : (revRow r).category = r.category := by
  unfold revRow; split <;> rfl

lemma revRow_quantity (r : Row) : (revRow r).quantity = r.quantity := by
  unfold revRow; split <;> rfl

lemma revRow_price (r : Row) : (revRow r).price = r.price := by
  unfold revRow; split <;> rfl

lemma revRow_region (r : Row) : (revRow r).region = r.region := by
  unfold revRow; split <;> rfl

lemma revRow_customer (r : Row) : (revRow r).customer_type = r.customer_type := by
  unfold revRow; split <;> rfl

lemma revRow_revenue_isSome (r : Row) : (revRow r).revenue.isSome := by
  unfold revRow; split
  · assumption
  · rfl

lemma fillRow_order_id (r : Row) : (fillRow r).order_id = r.order_id := rfl

lemma fillRow_order_date (r : Row) : (fillRow r).order_date = r.order_date := rfl

lemma fillRow_product (r : Row) : (fillRow r).product = r.product := rfl

lemma fillRow_category (r : Row) : (fillRow r).category = r.category := rfl

lemma fillRow_quantity (r : Row) : (fillRow r).quantity = r.quantity := rfl

lemma fillRow_price (r : Row) : (fillRow r).price = r.price := rfl

lemma fillRow_revenue (r : Row) : (fillRow r).revenue = r.revenue := rfl

lemma fillRow_region_isSome (r : Row) : (fillRow r).region.isSome := rfl

lemma fillRow_customer_isSome (r : Row) : (fillRow r).customer_type.isSome := rfl

/-- Every row surviving `_handle_missing_values` arose from an input row
with the critical fields present, and now has every analytic field
populated (with the date cell untouched). -/
lemma mem_handle_missing {t : List Row} {r : Row}
    (h : r ∈ _handle_missing_values t) :
    ∃ r0 ∈ t, r = fillRow (revRow r0) ∧
      idPresent r0.order_id = true ∧ r0.product.isSome = true ∧
      r0.category.isSome = true ∧ r0.quantity.isSome = true ∧
      r0.price.isSome = true := by
  unfold _handle_missing_values at h
  obtain ⟨r1, h1, hfill⟩ := List.mem_map.mp h
  obtain ⟨r0, h0, hrev⟩ := List.mem_map.mp h1
  have h3 := List.mem_filter.mp h0
  have h2 := List.mem_filter.mp h3.1
  have hcrit := List.mem_filter.mp h2.1
  have hck : critKeep r0 = true := hcrit.2
  unfold critKeep at hck
  simp only [Bool.and_eq_true] at hck
  exact ⟨r0, hcrit.1, by rw [← hfill, ← hrev], hck.1.1, hck.1.2, hck.2,
    h2.2, h3.2⟩

/-- Shape of a `_handle_missing_values` output row. -/
lemma hm_shape {t : List Row} {r : Row} (h : r ∈ _handle_missing_values t) :
    (∃ r0 ∈ t, r.order_date = r0.order_date) ∧
    idPresent r.order_id = true ∧
    r.product.isSome = true ∧ r.category.isSome = true ∧
    r.quantity.isSome = true ∧ r.price.isSome = true ∧
    r.revenue.isSome = true ∧
    r.region.isSome = true ∧ r.customer_type.isSome = true := by
  obtain ⟨r0, hmem, heq, hid, hprod, hcat, hq, hp⟩ := mem_handle_missing h
  subst heq
  refine ⟨⟨r0, hmem, ?_⟩, ?_, ?_, ?_, ?_, ?_, ?_, ?_, ?_⟩
  · rw [fillRow_order_date, revRow_order_date]
  · rw [fillRow_order_id, revRow_order_id]; exact hid
  · rw [fillRow_product, revRow_product]; exact hprod
  · rw [fillRow_category, revRow_category]; exact hcat
  · rw [fillRow_quantity, revRow_quantity]; exact hq
  · rw [fillRow_price, revRow_price]; exact hp
  · rw [fillRow_revenue]; exact revRow_revenue_isSome r0
  · exact fillRow_region_isSome _
  · exact fillRow_customer_isSome _

/-- Sanity checks of the float rendering against Python's `str`:
`str(0.5) = "0.5"`, `str(2.0) = "2.0"`, `str(-0.75) = "-0.75"`,
`str(0.0001) = "0.0001"` (edge of the fixed-point window),
`str(0.00001) = "1e-05"`, `str(1e16) = "1e+16"`,
`str(1.23e-05) = "1.23e-05"`. -/
lemma pyFloatStr_half : pyFloatStr ⟨1, 2, by decide, by decide⟩ = "0.5" := by
  decide

lemma pyFloatStr_two : pyFloatStr ⟨2, 1, by decide, by decide⟩ = "2.0" := by
  decide

lemma pyFloatStr_neg :
    pyFloatStr ⟨-3, 4, by decide, by decide⟩ = "-0.75" := by
  decide

lemma pyFloatStr_small :
    pyFloatStr ⟨1, 10000, by decide, by decide⟩ = "0.0001" := by
  decide

lemma pyFloatStr_sci_small :
    pyFloatStr ⟨1, 100000, by decide, by decide⟩ = "1e-05" := by
  decide

lemma pyFloatStr_sci_big :
    pyFloatStr ⟨10 ^ 16, 1, by decide, by decide⟩ = "1e+16" := by
  decide

lemma pyFloatStr_sci_mant :
    pyFloatStr ⟨123, 10000000, by decide, by decide⟩ = "1.23e-05" := by
  decide

/-- The textual collision the stage-5 coercion can create between a
float and a string ID: `str(0.5)` equals the string `"0.5"`. -/
lemma idToStr_float_collision :
    idToStr (.floatv ⟨1, 2, by decide, by decide⟩) =
      idToStr (.str "0.5") := by
  decide

lemma dedup_subset : ∀ {t : List Row} {seen : List IdVal} {r : Row},
    r ∈ dedupFirst t seen → r ∈ t := by
  intro t
  induction t with
  | nil => intro seen r h; simp [dedupFirst] at h
  | cons a rs ih =>
      intro seen r h
      rw [dedupFirst] at h
      split at h
      · exact List.mem_cons_of_mem _ (ih h)
      · rcases List.mem_cons.mp h with heq | hmem
        · exact heq ▸ List.mem_cons_self _ _
        · exact List.mem_cons_of_mem _ (ih hmem)

/-- Stage 4 touches only the `Revenue` cell of a row. -/
lemma fixRow_keeps (r : Row) :
    (fixRow r).order_id = r.order_id ∧ (fixRow r).order_date = r.order_date ∧
    (fixRow r).product = r.product ∧ (fixRow r).category = r.category ∧
    (fixRow r).quantity = r.quantity ∧ (fixRow r).price = r.price ∧
    (fixRow r).region = r.region ∧ (fixRow r).customer_type = r.customer_type := by
  obtain ⟨id0, od, pr, ca, q, p, v, re, ct⟩ := r
  rcases q with _ | q <;> rcases p with _ | p <;> rcases v with _ | v <;>
    simp only [fixRow] <;>
    first
      | simp
      | (split <;> simp)

/-- `fixCond q p (q * p)` never holds: a recomputed revenue is exact. -/
lemma fixCond_recomputed (q p : ℚ) : fixCond q p (q * p) = false := by
  unfold fixCond
  split
  · rename_i h
    simp only [h]
    simp
  · norm_num

/-- After the stage-4 action, the repair condition is false. -/
lemma fixRow_establishes {r : Row} {q p v : ℚ} (hq : r.quantity = some q)
    (hp : r.price = some p) (hv : r.revenue = some v) :
    ∃ v2, (fixRow r).revenue = some v2 ∧ fixCond q p v2 = false := by
  by_cases hfix : fixCond q p v = true
  · refine ⟨q * p, ?_, fixCond_recomputed q p⟩
    unfold fixRow
    rw [hq, hp, hv]
    simp [hfix]
  · rw [Bool.not_eq_true] at hfix
    refine ⟨v, ?_, hfix⟩
    unfold fixRow
    rw [hq, hp, hv]
    simp [hfix]
    exact hv

lemma typeRow_order_id (r : Row) :
    (typeRow r).order_id = IdVal.str (idToStr r.order_id) := rfl

lemma typeRow_order_date (r : Row) : (typeRow r).order_date = r.order_date := rfl

lemma typeRow_quantity (r : Row) : (typeRow r).quantity = r.quantity := rfl

lemma typeRow_price (r : Row) : (typeRow r).price = r.price := rfl

lemma typeRow_revenue (r : Row) : (typeRow r).revenue = r.revenue := rfl

lemma strCell_isSome (o : Option String) : (strCell o).isSome := by
  cases o <;> rfl

/-- Every row of the cleaned table satisfies the full shape invariant. -/
lemma clean_shape {t : List Row} {r : Row} (h : r ∈ clean_data t) :
    RowShape r := by
  unfold clean_data _handle_outliers _validate_data_types
    _fix_revenue_calculations at h
  obtain ⟨r1, h1, htype⟩ := List.mem_map.mp h
  obtain ⟨r2, h2, hfix⟩ := List.mem_map.mp h1
  have h2' : r2 ∈ _handle_missing_values (_standardize_dates t) :=
    dedup_subset h2
  obtain ⟨⟨r0, hr0, hdate⟩, hid, hprod, hcat, hq, hp, hv, hreg, hct⟩ :=
    hm_shape h2'
  obtain ⟨d, hd⟩ := mem_standardize hr0
  obtain ⟨q, hq'⟩ := Option.isSome_iff_exists.mp hq
  obtain ⟨p, hp'⟩ := Option.isSome_iff_exists.mp hp
  obtain ⟨v, hv'⟩ := Option.isSome_iff_exists.mp hv
  obtain ⟨v2, hv2, hcond⟩ := fixRow_establishes hq' hp' hv'
  subst htype hfix
  refine ⟨⟨d, ?_⟩, ⟨idToStr (fixRow r2).order_id, rfl⟩, ?_, ?_, ?_, ?_,
    q, p, v2, ?_, ?_, ?_, hcond⟩
  · rw [typeRow_order_date, (fixRow_keeps r2).2.1, hdate, hd]
  · exact strCell_isSome _
  · exact strCell_isSome _
  · exact strCell_isSome _
  · exact strCell_isSome _
  · rw [typeRow_quantity, (fixRow_keeps r2).2.2.2.2.1, hq']
  · rw [typeRow_price, (fixRow_keeps r2).2.2.2.2.2.1, hp']
  · rw [typeRow_revenue, hv2]

/-- `fixCond = false` is exactly the spec's revenue invariant. -/
lemma fixCond_false_inv {q p v : ℚ} (h : fixCond q p v = false) :
    (q * p = 0 ∧ v = 0) ∨ |v - q * p| / (q * p) ≤ 1 / 100 := by
  unfold fixCond at h
  split at h
  · rename_i h0
    left
    refine ⟨h0, ?_⟩
    simpa using h
  · right
    have h1 : ¬(|v - q * p| / (q * p) * 100 > 1) := by simpa using h
    have h2 := not_lt.mp h1
    linarith

lemma map_eq_of {α β : Type} (l : List α) (f g : α → β)
    (h : ∀ a ∈ l, f a = g a) : l.map f = l.map g := by
  induction l with
  | nil => rfl
  | cons a t ih =>
      rw [List.map_cons, List.map_cons, h a (List.mem_cons_self _ _),
        ih fun x hx => h x (List.mem_cons_of_mem _ hx)]

/-- The `Order_ID` column of the cleaned table is the text image of the
column the dedup stage produced. -/
lemma clean_ids (t : List Row) :
    (clean_data t).map Row.order_id =
      (dedupStage t).map fun r => IdVal.str (idToStr r.order_id) := by
  unfold clean_data _handle_outliers _validate_data_types
    _fix_revenue_calculations dedupStage
  rw [List.map_map, List.map_map]
  refine map_eq_of _ _ _ fun r _ => ?_
  show (typeRow (fixRow r)).order_id = IdVal.str (idToStr r.order_id)
  rw [typeRow_order_id, (fixRow_keeps r).1]

/-- A two-row table whose `Order_ID`s — the number `1` and the string
`"1"` — are distinct values with the same textual form. -/
def dupRowA : Row :=
  { order_id := .intv 1, order_date := .date 0, product := some "X",
    category := some "C", quantity := some 2, price := some 10,
    revenue := some 20, region := some "North",
    customer_type := some "Retail" }

lemma fixCond_dup : fixCond 2 10 20 = false := by
  unfold fixCond
  rw [if_neg (by norm_num : ¬((2 : ℚ) * 10 = 0))]
  simp only [decide_eq_false_iff_not]
  norm_num

lemma fixRow_dupA : fixRow dupRowA = dupRowA := by
  simp [fixRow, dupRowA, fixCond_dup]

/-- Evaluation: one clean row passes through the pipeline unchanged up
to the stage-5 text coercion. -/
lemma clean_single : clean_data [dupRowA] = [typeRow dupRowA] := by
  show _validate_data_types (_fix_revenue_calculations (_remove_duplicates
    (_handle_missing_values (_standardize_dates [dupRowA])))) = _
  have h1 : _standardize_dates [dupRowA] = [dupRowA] := rfl
  have h2 : _handle_missing_values [dupRowA] = [dupRowA] := rfl
  have h3 : _remove_duplicates [dupRowA] = [dupRowA] := rfl
  have h4 : _fix_revenue_calculations [dupRowA] = [dupRowA] := by
    show [fixRow dupRowA] = _
    rw [fixRow_dupA]
  rw [h1, h2, h3, h4]
  rfl

/-- C3.  For every input table, every row of the cleaned table has
populated Quantity/Price/Revenue cells and satisfies the revenue
invariant: `|Revenue − Quantity×Price| / (Quantity×Price) ≤ 0.01`, or
`Quantity×Price = 0` and `Revenue = 0`.  The stage-5 type normalization
is the identity on these (numeric-or-missing) cells, so the invariant
survives it; in the original program a non-numeric string in one of
these columns makes stage 4 raise, so no cleaned table is returned for
such inputs at all. -/
theorem C3_revenue_invariant (t : List Row) (r : Row)
    (h : r ∈ clean_data t) :
    ∃ q p v, r.quantity = some q ∧ r.price = some p ∧ r.revenue = some v ∧
      ((q * p = 0 ∧ v = 0) ∨ |v - q * p| / (q * p) ≤ 1 / 100) := by
  obtain ⟨_, _, _, _, _, _, q, p, v, hq, hp, hv, hcond⟩ := clean_shape h
  exact ⟨q, p, v, hq, hp, hv, fixCond_false_inv hcond⟩

/-- Witness for C3 at a concrete table. -/
theorem C3_revenue_invariant_witness :
    ∃ q p v, (typeRow dupRowA).quantity = some q ∧
      (typeRow dupRowA).price = some p ∧
      (typeRow dupRowA).revenue = some v ∧
      ((q * p = 0 ∧ v = 0) ∨ |v - q * p| / (q * p) ≤ 1 / 100) :=
  C3_revenue_invariant [dupRowA] (typeRow dupRowA)
    (by rw [clean_single]; exact List.mem_singleton.mpr rfl)

/-- On an unknown method tag, `generate_forecast` returns the
invalid-method error — but only after `prepare_time_series` has already
rewritten the table and stored the monthly series; `forecast_results`
is left untouched. -/
lemma gen_forecast_invalid (s : ForecasterState) (m : String) (p : ℕ)
    (fitES fitAR : FitOutcome) (h1 : m ≠ "moving_average")
    (h2 : m ≠ "exponential_smoothing") (h3 : m ≠ "arima") :
    generate_forecast s m p fitES fitAR =
      ({ df := prepareDf s.df, monthly_revenue := some (groupMonths s.df),
         forecast_results := s.forecast_results }, invalidMethodErr) := by
  simp only [generate_forecast]
  rw [if_neg h1, if_neg h2, if_neg h3]
  rfl

/-- A one-row forecaster table. -/
def c1Row : FRow := { date := 0, day := 5, year_month := none, revenue := 100 }

/-- A freshly-constructed forecaster state: no series prepared yet. -/
def c1State : ForecasterState :=
  { df := [c1Row], monthly_revenue := none, forecast_results := none }

/-- C1 counterexample.  Calling the engine with method `"bogus"` does
return the invalid-method error, but the state is *not* untouched: the
check runs after `prepare_time_series`, which stores the monthly series
(previously absent) and writes the `Year_Month` column into the table.
This refutes the claim's "prior to any processing of the series" part. -/
theorem C1_counterexample :
    (generate_forecast c1State "bogus" 6 (.fail "") (.fail "")).2 =
      invalidMethodErr ∧
    (generate_forecast c1State "bogus" 6 (.fail "") (.fail "")).1.monthly_revenue ≠
      c1State.monthly_revenue ∧
    (generate_forecast c1State "bogus" 6 (.fail "") (.fail "")).1.df ≠
      c1State.df := by
  have hgen := gen_forecast_invalid c1State "bogus" 6 (.fail "") (.fail "")
    (by decide) (by decide) (by decide)
  rw [hgen]
  refine ⟨rfl, ?_, ?_⟩
  · simp [c1State]
  · show prepareDf [c1Row] ≠ [c1Row]
    decide

/-- C1 (amended).  Every method tag outside
`{moving_average, exponential_smoothing, arima}` yields the
`InvalidMethod` error before any forecasting method is dispatched and
without storing a result — but the check happens *after* series
preparation: the stored monthly series is overwritten with the freshly
aggregated one and the table gains its `Year_Month` column. -/
theorem C1_invalid_method (s : ForecasterState) (m : String) (p : ℕ)
    (fitES fitAR : FitOutcome) (h1 : m ≠ "moving_average")
    (h2 : m ≠ "exponential_smoothing") (h3 : m ≠ "arima") :
    generate_forecast s m p fitES fitAR =
      ({ df := prepareDf s.df, monthly_revenue := some (groupMonths s.df),
         forecast_results := s.forecast_results }, invalidMethodErr) :=
  gen_forecast_invalid s m p fitES fitAR h1 h2 h3

/-- Witness for C1 at a concrete state and tag. -/
theorem C1_invalid_method_witness :
    generate_forecast c1State "bogus" 6 (.fail "") (.fail "") =
      ({ df := prepareDf c1State.df,
         monthly_revenue := some (groupMonths c1State.df),
         forecast_results := c1State.forecast_results }, invalidMethodErr) :=
  C1_invalid_method c1State "bogus" 6 (.fail "") (.fail "")
    (by decide) (by decide) (by decide)

lemma maPredsAux_length (histW : List ℚ) (w : ℕ) :
    ∀ (n : ℕ) (preds : List ℚ),
      (maPredsAux histW w n preds).length = preds.length + n := by
  intro n
  induction n with
  | zero => intro preds; simp [maPredsAux]
  | succ k ih =>
      intro preds
      rw [maPredsAux, ih]
      simp
      omega

lemma maPreds_length (hist : List ℚ) (w p : ℕ) :
    (maPreds hist w p).length = p := by
  unfold maPreds
  rw [maPredsAux_length]
  simp

lemma futureMonths_length (m : ℤ) (p : ℕ) : (futureMonths m p).length = p := by
  rw [futureMonths, List.length_map, List.length_range]

/-- The moving-average forecast values are exactly the prediction-loop
output. -/
lemma ma_forecast_vals (series : MonthlySeries) (w p : ℕ) :
    (moving_average_forecast series w p).forecast.map Prod.snd =
      maPreds (series.map Prod.snd) w p := by
  show ((futureMonths (lastMonth series) p).zip
    (maPreds (series.map Prod.snd) w p)).map Prod.snd = _
  apply List.map_snd_zip
  rw [maPreds_length, futureMonths_length]

/-- The §8 Scenario-B monthly series `[100,110,105,120,130,125]`. -/
def scenarioB : MonthlySeries :=
  [(0, 100), (1, 110), (2, 105), (3, 120), (4, 130), (5, 125)]

/-- Evaluation of the moving-average loop on Scenario B: the first step
averages the trailing window `[120,130,125]`, the second averages
`[130,125,125]`. -/
lemma maPreds_scenarioB : maPreds (scenarioB.map Prod.snd) 3 2 = [125, 380 / 3] := by
  show maPredsAux [120, 130, 125] 3 2 [] = [125, 380 / 3]
  have h0 : maStep [120, 130, 125] [] 3 = 125 := by
    show qmean [120, 130, 125] = 125
    unfold qmean
    norm_num
  rw [maPredsAux, h0]
  simp only [List.nil_append]
  have h1 : maStep [120, 130, 125] [125] 3 = 380 / 3 := by
    show qmean [130, 125, 125] = 380 / 3
    unfold qmean
    norm_num
  rw [maPredsAux, h1]
  rfl

/-- C2 counterexample.  On Scenario B with window 3 and horizon 2 the
code averages the *last* three values: forecast[0] is
`mean(120,130,125) = 125`, not `mean(110,105,120) ≈ 111.67` as claimed —
the two differ by more than 13. -/
theorem C2_counterexample :
    (moving_average_forecast scenarioB 3 2).forecast.map Prod.snd =
      [125, 380 / 3] ∧
    |(125 : ℚ) - qmean [110, 105, 120]| > 13 := by
  refine ⟨?_, ?_⟩
  · rw [ma_forecast_vals, maPreds_scenarioB]
  · unfold qmean
    rw [abs_of_nonneg (by norm_num)]
    norm_num

/-- C2 (amended).  On Scenario B with window 3 and horizon 2:
forecast[0] is the mean of the trailing three historical values
`mean(120,130,125) = 125`, and forecast[1] extends the series
recursively, averaging the last two historical values together with the
first forecast point: `mean(130,125,125) = 380/3 ≈ 126.67`. -/
theorem C2_moving_average_values :
    (moving_average_forecast scenarioB 3 2).forecast.map Prod.snd =
      [125, 380 / 3] ∧
    (125 : ℚ) = qmean [120, 130, 125] ∧
    (380 / 3 : ℚ) = qmean [130, 125, 125] := by
  refine ⟨?_, ?_, ?_⟩
  · rw [ma_forecast_vals, maPreds_scenarioB]
  · unfold qmean; norm_num
  · unfold qmean; norm_num

/-- C5.  Exponential smoothing yields the `InsufficientData` error
exactly when the series has fewer than 6 months, ARIMA exactly when it
has fewer than 12; with enough history each dispatches on the external
fit (so on exactly 6 resp. 12 months a fit is attempted), returning
either the success payload or a `FitFailure`-style error carrying only
the exception text — the error results carry no forecast or bound
fields by construction of `FResult.err`. -/
theorem C5_insufficient_data_gating (series : MonthlySeries) (p : ℕ)
    (fit : FitOutcome) (ord : ℕ × ℕ × ℕ) :
    (exponential_smoothing_forecast series p fit = insufficientES ↔
      series.length < 6) ∧
    (arima_forecast series ord p fit = insufficientAR ↔
      series.length < 12) ∧
    (6 ≤ series.length →
      exponential_smoothing_forecast series p fit =
        match fit with
        | .ok m => .ok (esBuild series p m)
        | .fail e => .err e esFailMsg) ∧
    (12 ≤ series.length →
      arima_forecast series ord p fit =
        match fit with
        | .ok m => .ok (arBuild series ord p m)
        | .fail e => .err e arFailMsg) := by
  refine ⟨⟨?_, ?_⟩, ⟨?_, ?_⟩, ?_, ?_⟩
  · intro h
    by_contra hlen
    unfold exponential_smoothing_forecast at h
    rw [if_neg hlen] at h
    cases fit with
    | ok m => exact FResult.noConfusion h
    | fail e =>
        unfold insufficientES at h
        injection h with h1 h2
        exact absurd h2 (by decide)
  · intro h
    unfold exponential_smoothing_forecast
    rw [if_pos h]
  · intro h
    by_contra hlen
    unfold arima_forecast at h
    rw [if_neg hlen] at h
    cases fit with
    | ok m => exact FResult.noConfusion h
    | fail e =>
        unfold insufficientAR at h
        injection h with h1 h2
        exact absurd h2 (by decide)
  · intro h
    unfold arima_forecast
    rw [if_pos h]
  · intro h
    unfold exponential_smoothing_forecast
    rw [if_neg (by omega)]
  · intro h
    unfold arima_forecast
    rw [if_neg (by omega)]

/-- A 6-month series (minimum for an exponential-smoothing fit). -/
def sixMonths : MonthlySeries :=
  [(0, 10), (1, 11), (2, 12), (3, 13), (4, 14), (5, 15)]

/-- Witness for C5: on a 6-month series the iffs and both dispatch
clauses are instantiated (the 6-month bound holds, the 12-month bound
fails). -/
theorem C5_insufficient_data_gating_witness :
    (exponential_smoothing_forecast sixMonths 2 (.fail "nofit") =
      insufficientES ↔ sixMonths.length < 6) ∧
    (arima_forecast sixMonths (1, 1, 1) 2 (.fail "nofit") =
      insufficientAR ↔ sixMonths.length < 12) ∧
    (6 ≤ sixMonths.length →
      exponential_smoothing_forecast sixMonths 2 (.fail "nofit") =
        match (FitOutcome.fail "nofit") with
        | .ok m => .ok (esBuild sixMonths 2 m)
        | .fail e => .err e esFailMsg) ∧
    (12 ≤ sixMonths.length →
      arima_forecast sixMonths (1, 1, 1) 2 (.fail "nofit") =
        match (FitOutcome.fail "nofit") with
        | .ok m => .ok (arBuild sixMonths (1, 1, 1) 2 m)
        | .fail e => .err e arFailMsg) :=
  C5_insufficient_data_gating sixMonths 2 (.fail "nofit") (1, 1, 1)

lemma mkBand_shape (method : String) (months : List ℤ) (vals : List ℚ)
    (σ : ℝ) (expl conf : String) (params : List (String × String))
    (hlen : vals.length = months.length) :
    (mkBand method months vals σ expl conf params).forecast.length =
      months.length ∧
    (mkBand method months vals σ expl conf params).lower.length =
      months.length ∧
    (mkBand method months vals σ expl conf params).upper.length =
      months.length ∧
    (mkBand method months vals σ expl conf params).forecast.map Prod.fst =
      months := by
  have hz : (months.zip vals).length = months.length := by
    rw [List.length_zip, hlen, min_self]
  refine ⟨hz, ?_, ?_, ?_⟩
  · show ((months.zip vals).map _).length = _
    rw [List.length_map, hz]
  · show ((months.zip vals).map _).length = _
    rw [List.length_map, hz]
  · exact List.map_fst_zip _ _ (le_of_eq hlen.symm)

/-- C7.  For every successful forecast call with horizon `p ≥ 1` on a
non-empty series — by any of the three methods — the forecast, lower
bound, and upper bound series all have exactly `p` entries, and the
forecast is indexed by the `p` consecutive months that immediately
follow the last historical month. -/
theorem C7_forecast_lengths (series : MonthlySeries) (w p : ℕ)
    (m : FittedModel) (ord : ℕ × ℕ × ℕ) (hp : 1 ≤ p) (hs : series ≠ []) :
    ((moving_average_forecast series w p).forecast.length = p ∧
     (moving_average_forecast series w p).lower.length = p ∧
     (moving_average_forecast series w p).upper.length = p ∧
     (moving_average_forecast series w p).forecast.map Prod.fst =
       futureMonths (lastMonth series) p) ∧
    ((esBuild series p m).forecast.length = p ∧
     (esBuild series p m).lower.length = p ∧
     (esBuild series p m).upper.length = p ∧
     (esBuild series p m).forecast.map Prod.fst =
       futureMonths (lastMonth series) p) ∧
    ((arBuild series ord p m).forecast.length = p ∧
     (arBuild series ord p m).lower.length = p ∧
     (arBuild series ord p m).upper.length = p ∧
     (arBuild series ord p m).forecast.map Prod.fst =
       futureMonths (lastMonth series) p) ∧
    futureMonths (lastMonth series) p =
      (List.range p).map fun (i : ℕ) => lastMonth series + 1 + (i : ℤ) := by
  have hma := mkBand_shape "Moving Average" (futureMonths (lastMonth series) p)
    (maPreds (series.map Prod.snd) w p) (popStd (takeR w (series.map Prod.snd)))
    ("Forecast based on average of last " ++ toString w ++
      " months. Assumes stable sales pattern without strong trends.")
    "Medium - Best for stable markets" [("window", toString w)]
    (by rw [maPreds_length, futureMonths_length])
  have hes := mkBand_shape "Exponential Smoothing"
    (futureMonths (lastMonth series) p) ((List.range p).map m.forecastFn)
    (popStd (List.zipWith (fun a b => a - b) m.fittedvalues
      (series.map Prod.snd)))
    ("Forecast using weighted average with more importance on recent months. " ++
      "Captures trend direction (growth/decline). " ++
      "Confidence intervals show 95% prediction range.")
    "High - Recommended for trending data"
    [("trend", "additive"), ("seasonal", "None")]
    (by rw [List.length_map, List.length_range, futureMonths_length])
  have har := mkBand_shape "ARIMA" (futureMonths (lastMonth series) p)
    ((List.range p).map m.forecastFn) (popStd m.resid)
    ("Statistical forecast using ARIMA(" ++ toString ord.1 ++ ", " ++
      toString ord.2.1 ++ ", " ++ toString ord.2.2 ++
      "). Model analyzes historical patterns, trends, and cycles. " ++
      "95% confidence interval provided.")
    "Very High - Best for long-term planning"
    [("order", toString ord.1 ++ "," ++ toString ord.2.1 ++ "," ++ toString ord.2.2),
     ("p", toString ord.1 ++ " (past values used)"),
     ("d", toString ord.2.1 ++ " (trend removal)"),
     ("q", toString ord.2.2 ++ " (error correction)")]
    (by rw [List.length_map, List.length_range, futureMonths_length])
  rw [futureMonths_length] at hma hes har
  exact ⟨hma, hes, har, rfl⟩

/-- A trivial abstract fitted model, for concrete instantiations. -/
def constModel : FittedModel :=
  { forecastFn := fun _ => 0, fittedvalues := [], resid := [] }

/-- Witness for C7 at Scenario B with horizon 2. -/
theorem C7_forecast_lengths_witness :
    ((moving_average_forecast scenarioB 3 2).forecast.length = 2 ∧
     (moving_average_forecast scenarioB 3 2).lower.length = 2 ∧
     (moving_average_forecast scenarioB 3 2).upper.length = 2 ∧
     (moving_average_forecast scenarioB 3 2).forecast.map Prod.fst =
       futureMonths (lastMonth scenarioB) 2) ∧
    ((esBuild scenarioB 2 constModel).forecast.length = 2 ∧
     (esBuild scenarioB 2 constModel).lower.length = 2 ∧
     (esBuild scenarioB 2 constModel).upper.length = 2 ∧
     (esBuild scenarioB 2 constModel).forecast.map Prod.fst =
       futureMonths (lastMonth scenarioB) 2) ∧
    ((arBuild scenarioB (1, 1, 1) 2 constModel).forecast.length = 2 ∧
     (arBuild scenarioB (1, 1, 1) 2 constModel).lower.length = 2 ∧
     (arBuild scenarioB (1, 1, 1) 2 constModel).upper.length = 2 ∧
     (arBuild scenarioB (1, 1, 1) 2 constModel).forecast.map Prod.fst =
       futureMonths (lastMonth scenarioB) 2) ∧
    futureMonths (lastMonth scenarioB) 2 =
      (List.range 2).map fun (i : ℕ) => lastMonth scenarioB + 1 + (i : ℤ) :=
  C7_forecast_lengths scenarioB 3 2 constModel (1, 1, 1)
    (by decide) (by decide)

/-- The confidence-band contract of one result: the `lower`/`upper`
series are `forecast ∓ 1.96·σ` with the single non-negative σ held
constant across the horizon, hence `lower ≤ forecast ≤ upper` pointwise
(with matching months). -/
def bandOK (d : ForecastData) (σ : ℝ) : Prop :=
  0 ≤ σ ∧
  d.lower = d.forecast.map (fun mp => (mp.1, (mp.2 : ℝ) - 196 / 100 * σ)) ∧
  d.upper = d.forecast.map (fun mp => (mp.1, (mp.2 : ℝ) + 196 / 100 * σ)) ∧
  ∀ i mo fv, d.forecast.get? i = some (mo, fv) →
    ∃ lv uv, d.lower.get? i = some (mo, lv) ∧ d.upper.get? i = some (mo, uv) ∧
      lv ≤ (fv : ℝ) ∧ (fv : ℝ) ≤ uv

lemma popStd_nonneg (xs : List ℚ) : 0 ≤ popStd xs :=
  Real.sqrt_nonneg _

lemma mkBand_bandOK (method : String) (months : List ℤ) (vals : List ℚ)
    (σ : ℝ) (expl conf : String) (params : List (String × String))
    (hσ : 0 ≤ σ) :
    bandOK (mkBand method months vals σ expl conf params) σ := by
  refine ⟨hσ, rfl, rfl, ?_⟩
  intro i mo fv hget
  have hc : (0 : ℝ) ≤ 196 / 100 * σ := by
    apply mul_nonneg _ hσ
    norm_num
  refine ⟨(fv : ℝ) - 196 / 100 * σ, (fv : ℝ) + 196 / 100 * σ, ?_, ?_,
    by linarith, by linarith⟩
  · show ((months.zip vals).map _).get? i = _
    rw [List.get?_map]
    have : (mkBand method months vals σ expl conf params).forecast =
        months.zip vals := rfl
    rw [this] at hget
    rw [hget]
    rfl
  · show ((months.zip vals).map _).get? i = _
    rw [List.get?_map]
    have : (mkBand method months vals σ expl conf params).forecast =
        months.zip vals := rfl
    rw [this] at hget
    rw [hget]
    rfl

/-- C8.  For every forecast produced by any of the three methods, the
band is the symmetric interval `forecast ± 1.96·σ` with a single
standard deviation — `np.std` of the trailing window (moving average),
of the in-sample residuals (exponential smoothing), or of the model
residuals (ARIMA) — held constant across the whole horizon, and since a
standard deviation is non-negative, `lower ≤ forecast ≤ upper` at every
forecast point. -/
theorem C8_band_ordering (series : MonthlySeries) (w p : ℕ)
    (m : FittedModel) (ord : ℕ × ℕ × ℕ) :
    bandOK (moving_average_forecast series w p)
      (popStd (takeR w (series.map Prod.snd))) ∧
    bandOK (esBuild series p m)
      (popStd (List.zipWith (fun a b => a - b) m.fittedvalues
        (series.map Prod.snd))) ∧
    bandOK (arBuild series ord p m) (popStd m.resid) :=
  ⟨mkBand_bandOK _ _ _ _ _ _ _ (popStd_nonneg _),
   mkBand_bandOK _ _ _ _ _ _ _ (popStd_nonneg _),
   mkBand_bandOK _ _ _ _ _ _ _ (popStd_nonneg _)⟩

/-- Witness for C8 at Scenario B. -/
theorem C8_band_ordering_witness :
    bandOK (moving_average_forecast scenarioB 3 2)
      (popStd (takeR 3 (scenarioB.map Prod.snd))) ∧
    bandOK (esBuild scenarioB 2 constModel)
      (popStd (List.zipWith (fun a b => a - b) constModel.fittedvalues
        (scenarioB.map Prod.snd))) ∧
    bandOK (arBuild scenarioB (1, 1, 1) 2 constModel)
      (popStd constModel.resid) :=
  C8_band_ordering scenarioB 3 2 constModel (1, 1, 1)

lemma takeR_length {α : Type} (n : ℕ) (l : List α) :
    (takeR n l).length = min n l.length := by
  unfold takeR
  rw [List.length_drop]
  omega

lemma trend_growth_iff (pct : ℚ) :
    (if 5 < pct then "GROWTH" else if pct < -5 then "DECLINE"
      else "STABLE") = "GROWTH" ↔ 5 < pct := by
  split_ifs with h1 h2
  · simp [h1]
  · exact ⟨fun h => absurd h (by decide), fun h => absurd h h1⟩
  · exact ⟨fun h => absurd h (by decide), fun h => absurd h h1⟩

lemma trend_decline_iff (pct : ℚ) :
    (if 5 < pct then "GROWTH" else if pct < -5 then "DECLINE"
      else "STABLE") = "DECLINE" ↔ pct < -5 := by
  split_ifs with h1 h2
  · exact ⟨fun h => absurd h (by decide),
      fun h => absurd h (not_lt.mpr (by linarith))⟩
  · simp [h2]
  · exact ⟨fun h => absurd h (by decide), fun h => absurd h h2⟩

lemma trend_stable_iff (pct : ℚ) :
    (if 5 < pct then "GROWTH" else if pct < -5 then "DECLINE"
      else "STABLE") = "STABLE" ↔ (-5 ≤ pct ∧ pct ≤ 5) := by
  split_ifs with h1 h2
  · exact ⟨fun h => absurd h (by decide), fun h => absurd h1 (not_lt.mpr h.2)⟩
  · exact ⟨fun h => absurd h (by decide), fun h => absurd h2 (not_lt.mpr h.1)⟩
  · exact ⟨fun _ => ⟨not_lt.mp h2, not_lt.mp h1⟩, fun _ => rfl⟩

/-- C9.  The summarizer is a pure function of the result: it averages
the last `min(6, len)` historical months (`historical[-6:]`), computes
the guarded percent change of the average forecast against that
average, and classifies `GROWTH` exactly when that change is `> 5`,
`DECLINE` exactly when it is `< −5`, and `STABLE` otherwise. -/
theorem C9_summary_classification (d : ForecastData) :
    (takeR 6 (d.historical.map Prod.snd)).length =
      min 6 d.historical.length ∧
    (get_forecast_summary d).avg_historical_last_6m =
      qmean (takeR 6 (d.historical.map Prod.snd)) ∧
    (get_forecast_summary d).avg_monthly_forecast =
      qmean (d.forecast.map Prod.snd) ∧
    (get_forecast_summary d).total_forecast_revenue =
      (d.forecast.map Prod.snd).sum ∧
    (get_forecast_summary d).change_from_historical_pct =
      (if 0 < (get_forecast_summary d).avg_historical_last_6m then
        ((get_forecast_summary d).avg_monthly_forecast -
          (get_forecast_summary d).avg_historical_last_6m) /
          (get_forecast_summary d).avg_historical_last_6m * 100
       else 0) ∧
    ((get_forecast_summary d).trend = "GROWTH" ↔
      5 < (get_forecast_summary d).change_from_historical_pct) ∧
    ((get_forecast_summary d).trend = "DECLINE" ↔
      (get_forecast_summary d).change_from_historical_pct < -5) ∧
    ((get_forecast_summary d).trend = "STABLE" ↔
      (-5 ≤ (get_forecast_summary d).change_from_historical_pct ∧
        (get_forecast_summary d).change_from_historical_pct ≤ 5)) := by
  refine ⟨?_, rfl, rfl, rfl, rfl, ?_, ?_, ?_⟩
  · rw [takeR_length, List.length_map]
  · exact trend_growth_iff _
  · exact trend_decline_iff _
  · exact trend_stable_iff _

/-- C10.  When the trailing historical average is non-positive the
summarizer skips the division: the percent change is set to `0` and the
trend is classified `STABLE`, whatever the forecast values are. -/
theorem C10_nonpositive_average_guard (d : ForecastData)
    (h : (get_forecast_summary d).avg_historical_last_6m ≤ 0) :
    (get_forecast_summary d).change_from_historical_pct = 0 ∧
    (get_forecast_summary d).trend = "STABLE" := by
  simp only [get_forecast_summary] at h ⊢
  rw [if_neg (not_lt.mpr h)]
  norm_num

/-- A completed result whose trailing historical average is negative
but whose forecast is large. -/
def negHistData : ForecastData :=
  { method := "Moving Average", forecast := [(1, 100)], lower := [],
    upper := [], explanation := "", confidence := "", parameters := [],
    historical := [(0, -1)], forecast_period_months := 1 }

/-- Witness for C10 at a concrete result. -/
theorem C10_nonpositive_average_guard_witness :
    (get_forecast_summary negHistData).change_from_historical_pct = 0 ∧
    (get_forecast_summary negHistData).trend = "STABLE" :=
  C10_nonpositive_average_guard negHistData (by
    show qmean (takeR 6 (negHistData.historical.map Prod.snd)) ≤ 0
    show qmean [(-1 : ℚ)] ≤ 0
    unfold qmean
    norm_num)
